import Mathlib

/-!
Shallow embedding of the FHIR Django models repository: the validation
(`clean`) chain of the abstract resource hierarchy, the resource-specific
models (Observation, Encounter, Organization, CanonicalResource), and the
FHIR JSON serializers (`convert_observation`, `convert_encounter`, ...).

Conventions of the embedding:
  * Django nullable columns become `Option` fields; a Python `datetime` is
    an abstract totally ordered timestamp (`Int`), a `Decimal` likewise an
    abstract value whose content no rule inspects.
  * Python truthiness is modelled explicitly where the source tests it:
    `strTruthy` for strings (empty string is falsy), `pkTruthy` for primary
    keys, `jTruthy` for JSON values.  Model instances and datetimes are
    always truthy in Python, so a truthiness test on a nullable foreign key
    or datetime column is `Option.isSome`.
  * `clean` methods raise `ValidationError` on the first violated rule;
    they become `Except String Unit` returning the source message of the
    first violated rule.
  * Serializers build Python dicts key by key; they become association
    lists `List (String × J)` in insertion order (no key is ever written
    twice, so assoc-list and dict semantics agree).
-/

/-- Abstract timestamp standing in for Python `datetime` values; only the
order (for the Encounter date rule) and presence are ever inspected. -/
abbrev DateTime := Int

/-- Abstract time-of-day value (Django `TimeField`). -/
abbrev TimeVal := Int

/-- Abstract decimal value (Django `DecimalField`); only nullness matters. -/
abbrev DecimalVal := Int

/-- Python truthiness of an optional string column: `None` and `""` are
falsy, every other string truthy. -/
def strTruthy : Option String → Bool
  | none => false
  | some s => s != ""

/-- Python truthiness of `self.pk`: unset (None) and 0 are falsy.  (Django
auto primary keys are positive, but the embedding keeps the exact test.) -/
def pkTruthy : Option Nat → Bool
  | none => false
  | some n => n != 0

/-- Python `str(x)` on an optional string, as an f-string interpolates it:
`None` prints as the literal text `None`. -/
def pyStr : Option String → String
  | none => "None"
  | some s => s

/-- FHIR JSON wire values.  `null` is included so that the serialization
contract "absent fields are omitted, never emitted as null" is a statement
about the output rather than a typing accident. -/
inductive J where
  | null
  | str (s : String)
  | bool (b : Bool)
  | int (i : Int)
  | arr (elems : List J)
  | obj (fields : List (String × J))

/-- Python truthiness of a JSON value: `None`, `""`, `False`, `0`, `[]`
and the empty dict are falsy. -/
def jTruthy : J → Bool
  | .null => false
  | .str s => s != ""
  | .bool b => b
  | .int i => i != 0
  | .arr elems => !elems.isEmpty
  | .obj fields => !fields.isEmpty

/-- Stand-in for `datetime.isoformat()`; the exact text is never inspected
by any rule, only its presence. -/
def isoDT (d : DateTime) : String := toString d

/-- Stand-in for `time.isoformat()`. -/
def isoTime (t : TimeVal) : String := toString t

/-! ### Complex datatypes of the `components` app

Modelled from the spec: the `components` application (Coding,
CodeableConcept, Period, Quantity, Range, Reference, Identifier,
ContactPoint, ContactDetail, MetaElement) is referenced throughout the
models and serializers of the repository but its own module is not among
the staged source files; the field sets below follow the spec's datatype
list (§2, §3) and the accesses the staged code makes. -/

/-- Modelled from the spec: FHIR Coding (system / code / display). -/
structure Coding where
  system : Option String := none
  code : Option String := none
  display : Option String := none
deriving DecidableEq

/-- Modelled from the spec: FHIR CodeableConcept (codings plus text). -/
structure CodeableConcept where
  coding : List Coding := []
  text : Option String := none
deriving DecidableEq

/-- Modelled from the spec: FHIR Period (start / end timestamps). -/
structure Period where
  start : Option DateTime := none
  end_ : Option DateTime := none
deriving DecidableEq

/-- Modelled from the spec: FHIR Quantity (value and unit). -/
structure Quantity where
  value : Option DecimalVal := none
  unit : Option String := none
deriving DecidableEq

/-- Modelled from the spec: FHIR Range (low / high quantities). -/
structure RangeData where
  low : Option Quantity := none
  high : Option Quantity := none
deriving DecidableEq

/-- Modelled from the spec: FHIR Reference; serializers read its
`reference` string (`"<Type>/<id>"`). -/
structure Reference where
  reference : String := ""
deriving DecidableEq

/-- Modelled from the spec: FHIR Identifier. -/
structure Identifier where
  system : Option String := none
  value : Option String := none
deriving DecidableEq

/-- Modelled from the spec: FHIR ContactPoint; the Organization rule reads
its `use` code. -/
structure ContactPoint where
  system : Option String := none
  value : Option String := none
  use : Option String := none
deriving DecidableEq

/-- Modelled from the spec: FHIR ExtendedContactDetail as linked from
Organization; the Organization rule iterates its `telecom` entries. -/
structure ContactDetail where
  name : Option String := none
  telecom : List ContactPoint := []
deriving DecidableEq

/-- Modelled from the spec: resource metadata record; `DomainResource.clean`
reads `versionId`, `lastUpdated` and the `security` labels. -/
structure MetaElement where
  versionId : Option String := none
  lastUpdated : Option DateTime := none
  security : List Coding := []
deriving DecidableEq

/-! ### AbstractExtension (src/abstractClasses/models.py lines 8-48) -/

/-- `AbstractExtension`: a (url, value) pair whose value is a choice type
over six storage slots (src/abstractClasses/models.py lines 8-24). -/
structure Extension where
  url : String := ""
  value_string : Option String := none
  value_boolean : Option Bool := none
  value_integer : Option Int := none
  value_decimal : Option DecimalVal := none
  value_datetime : Option DateTime := none
  value_period : Option Period := none
deriving DecidableEq

/-- The `set_values` list of `AbstractExtension.clean`: names of the value
fields that are not `None` (lines 31-35). -/
def extensionSetValues (e : Extension) : List String :=
  (([("value_string", e.value_string.isSome),
     ("value_boolean", e.value_boolean.isSome),
     ("value_integer", e.value_integer.isSome),
     ("value_decimal", e.value_decimal.isSome),
     ("value_datetime", e.value_datetime.isSome),
     ("value_period", e.value_period.isSome)] : List (String × Bool)).filter
       (fun p => p.2)).map Prod.fst

/-- `AbstractExtension.clean` (lines 29-37): at most one value slot set. -/
def extensionClean (e : Extension) : Except String Unit :=
  if (extensionSetValues e).length > 1 then
    .error "Only one value[x] can be set per Extension."
  else .ok ()

/-! ### Element (src/abstractClasses/models.py lines 58-70) -/

/-- The columns and related state `Element.clean` consults: the primary
key, `fhir_id`, the truthiness of a `children` attribute when one exists
(`hasattr(self, 'children') and self.children`), and the attached
extensions of the generic relation. -/
structure ElementData where
  pk : Option Nat := none
  fhir_id : Option String := none
  childrenTruthy : Bool := false
  extensions : List Extension := []
deriving DecidableEq

/-- `Element.clean` (lines 66-70): `fhir_id` is required when the element
has children or extensions; the extension relation is only consulted when
the instance is persisted (`self.extension.exists() if self.pk else False`). -/
def elementClean (e : ElementData) : Except String Unit :=
  let has_children := e.childrenTruthy
  let has_extension := if pkTruthy e.pk then !e.extensions.isEmpty else false
  if (has_children || has_extension) && !(strTruthy e.fhir_id) then
    .error "Element.fhir_id is required when element has children or extensions"
  else .ok ()

/-! ### Resource and DomainResource (src/abstractClasses/models.py lines 119-197) -/

/-- The columns of the abstract `Resource` / `DomainResource` bases as they
appear (via Django abstract inheritance) on every concrete resource table,
restricted to those any staged rule or serializer reads. -/
structure DomainData where
  pk : Option Nat := none
  fhir_id : Option String := none
  meta : Option MetaElement := none
  implicitRules : Option String := none
  language : Option String := none
  contained : List Nat := []
  container : Option Nat := none
deriving DecidableEq

/-- `Resource.clean` (lines 142-146): implicit rules require `fhir_id`. -/
def resourceClean (d : DomainData) : Except String Unit :=
  if strTruthy d.implicitRules && !(strTruthy d.fhir_id) then
    .error "Resource.fhir_id is required when resource has implicit rules"
  else .ok ()

/-- The test of containment Rule 2 (line 192):
`self.meta and (self.meta.versionId or self.meta.lastUpdated)`. -/
def metaHasVersionInfo : Option MetaElement → Bool
  | none => false
  | some m => strTruthy m.versionId || m.lastUpdated.isSome

/-- The test of containment Rule 3 (line 196):
`self.meta and self.meta.security.exists()`. -/
def metaHasSecurity : Option MetaElement → Bool
  | none => false
  | some m => !m.security.isEmpty

/-- The containment rules of `DomainResource.clean` (lines 186-197): when
`container` is set, the first violated rule among (contained non-empty,
meta version info present, meta security labels present) raises. -/
def containmentCheck (d : DomainData) : Except String Unit :=
  match d.container with
  | none => .ok ()
  | some _ =>
    if !d.contained.isEmpty then
      .error "Contained resources cannot themselves contain other resources"
    else if metaHasVersionInfo d.meta then
      .error "Contained resources cannot have meta.versionId or meta.lastUpdated"
    else if metaHasSecurity d.meta then
      .error "Contained resources cannot have security labels"
    else .ok ()

/-- `DomainResource.clean` (lines 182-197): the inherited `Resource.clean`
followed by the containment rules. -/
def domainResourceClean (d : DomainData) : Except String Unit := do
  resourceClean d
  containmentCheck d

/-! ### CanonicalResource (src/abstractClasses/models.py lines 200-257) -/

/-- The columns of `CanonicalResource` its `clean` reads, atop the
inherited `DomainResource` columns. -/
structure CanonicalResourceData where
  dom : DomainData := {}
  url : Option String := none
  version : Option String := none
  versionAlgorithmString : Option String := none
  versionAlgorithmCoding : Option Coding := none
  name : Option String := none
  title : Option String := none
  status : String := "draft"
deriving DecidableEq

/-- The versionAlgorithm[x] rule of `CanonicalResource.clean` (lines
248-250): `if self.versionAlgorithmString and self.versionAlgorithmCoding`
— a Python truthiness test on both branches. -/
def versionAlgorithmCheck (c : CanonicalResourceData) : Except String Unit :=
  if strTruthy c.versionAlgorithmString && c.versionAlgorithmCoding.isSome then
    .error "Only one versionAlgorithm[x] field can be set"
  else .ok ()

/-- The url rule of `CanonicalResource.clean` (lines 252-254). -/
def canonicalUrlCheck (c : CanonicalResourceData) : Except String Unit :=
  if strTruthy c.url
      && ((c.url.getD "").contains '|' || (c.url.getD "").contains '#') then
    .error "URL should not contain | or # characters"
  else .ok ()

/-- `CanonicalResource.clean` (lines 246-254). -/
def canonicalResourceClean (c : CanonicalResourceData) : Except String Unit := do
  domainResourceClean c.dom
  versionAlgorithmCheck c
  canonicalUrlCheck c

/-! ### Observation (src/observation/models.py) -/

/-- `ObservationReferenceRange` (src/observation/models.py lines 23-45),
restricted to the fields its serializer reads. -/
structure ObservationReferenceRange where
  low : Option Quantity := none
  high : Option Quantity := none
  normalValue : Option CodeableConcept := none
  type : Option CodeableConcept := none
  text : Option String := none
deriving DecidableEq

/-- `ObservationComponent` (src/observation/models.py lines 48-81): the
inherited Element columns plus code, dataAbsentReason, interpretation, the
nine value[x] slots and the owned reference ranges. -/
structure ObservationComponent where
  elem : ElementData := {}
  code : CodeableConcept := {}
  dataAbsentReason : Option CodeableConcept := none
  interpretation : List CodeableConcept := []
  valueQuantity : Option Quantity := none
  valueCodeableConcept : Option CodeableConcept := none
  valueString : Option String := none
  valueBoolean : Option Bool := none
  valueInteger : Option Int := none
  valueRange : Option RangeData := none
  valuePeriod : Option Period := none
  valueDateTime : Option DateTime := none
  valueTime : Option TimeVal := none
  reference_ranges : List ObservationReferenceRange := []
deriving DecidableEq

/-- The `set_values` list of `ObservationComponent.clean` (lines 75-79). -/
def compSetValues (c : ObservationComponent) : List String :=
  (([("valueQuantity", c.valueQuantity.isSome),
     ("valueCodeableConcept", c.valueCodeableConcept.isSome),
     ("valueString", c.valueString.isSome),
     ("valueBoolean", c.valueBoolean.isSome),
     ("valueInteger", c.valueInteger.isSome),
     ("valueRange", c.valueRange.isSome),
     ("valuePeriod", c.valuePeriod.isSome),
     ("valueDateTime", c.valueDateTime.isSome),
     ("valueTime", c.valueTime.isSome)] : List (String × Bool)).filter
       (fun p => p.2)).map Prod.fst

/-- The value[x] rule of `ObservationComponent.clean` (lines 79-81). -/
def compValueCheck (c : ObservationComponent) : Except String Unit :=
  if (compSetValues c).length > 1 then
    .error "Only one value[x] can be set per ObservationComponent"
  else .ok ()

/-- `ObservationComponent.clean` (lines 73-81): `super().clean()` resolves
to `Element.clean` (BackboneElement adds no clean), then the value rule. -/
def observationComponentClean (c : ObservationComponent) : Except String Unit := do
  elementClean c.elem
  compValueCheck c

/-- Link to the owning Encounter; `convert_observation` reads only its
`fhir_id` (src/observation/serializers.py line 101). -/
structure EncounterLink where
  fhir_id : Option String := none
deriving DecidableEq

/-- `Observation` (src/observation/models.py lines 84-199), restricted to
the columns and relations its `clean` and serializer read.  `note` is a
JSONField, hence a raw JSON value that is `null` when unset. -/
structure Observation where
  dom : DomainData := {}
  status : String := "final"
  code : CodeableConcept := {}
  category : List CodeableConcept := []
  subject : Option Reference := none
  encounter : Option EncounterLink := none
  effectiveDateTime : Option DateTime := none
  effectiveInstant : Option DateTime := none
  effectivePeriod : Option Period := none
  issued : Option DateTime := none
  valueQuantity : Option Quantity := none
  valueCodeableConcept : Option CodeableConcept := none
  valueString : Option String := none
  valueBoolean : Option Bool := none
  valueInteger : Option Int := none
  valueRange : Option RangeData := none
  valuePeriod : Option Period := none
  valueDateTime : Option DateTime := none
  valueTime : Option TimeVal := none
  dataAbsentReason : Option CodeableConcept := none
  interpretation : List CodeableConcept := []
  note : J := .null
  bodySite : Option CodeableConcept := none
  method : Option CodeableConcept := none
  reference_ranges : List ObservationReferenceRange := []
  components : List ObservationComponent := []

/-- The `set_effectives` list of `Observation.clean` (lines 180-181). -/
def obsEffectiveSet (o : Observation) : List String :=
  (([("effectiveDateTime", o.effectiveDateTime.isSome),
     ("effectiveInstant", o.effectiveInstant.isSome),
     ("effectivePeriod", o.effectivePeriod.isSome)] : List (String × Bool)).filter
       (fun p => p.2)).map Prod.fst

/-- The `set_values` list of `Observation.clean` (lines 186-190). -/
def obsSetValues (o : Observation) : List String :=
  (([("valueQuantity", o.valueQuantity.isSome),
     ("valueCodeableConcept", o.valueCodeableConcept.isSome),
     ("valueString", o.valueString.isSome),
     ("valueBoolean", o.valueBoolean.isSome),
     ("valueInteger", o.valueInteger.isSome),
     ("valueRange", o.valueRange.isSome),
     ("valuePeriod", o.valuePeriod.isSome),
     ("valueDateTime", o.valueDateTime.isSome),
     ("valueTime", o.valueTime.isSome)] : List (String × Bool)).filter
       (fun p => p.2)).map Prod.fst

/-- The effective[x] rule of `Observation.clean` (lines 179-183). -/
def obsEffectiveCheck (o : Observation) : Except String Unit :=
  if (obsEffectiveSet o).length > 1 then
    .error "Only one effective[x] field can be set"
  else .ok ()

/-- The value[x] rule of `Observation.clean` (lines 185-192). -/
def obsValueCheck (o : Observation) : Except String Unit :=
  if (obsSetValues o).length > 1 then
    .error "Only one value[x] field can be set"
  else .ok ()

/-- The dataAbsentReason rule of `Observation.clean` (lines 194-196):
`if self.pk and set_values and self.dataAbsentReason` — the rule is gated
on the instance being persisted. -/
def obsDarCheck (o : Observation) : Except String Unit :=
  if pkTruthy o.dom.pk && !(obsSetValues o).isEmpty && o.dataAbsentReason.isSome then
    .error "dataAbsentReason shall only be present if there is no value[x]"
  else .ok ()

/-- `Observation.clean` (lines 177-196): the inherited `DomainResource`
chain, then the three observation rules in source order. -/
def observationClean (o : Observation) : Except String Unit := do
  domainResourceClean o.dom
  obsEffectiveCheck o
  obsValueCheck o
  obsDarCheck o

/-! ### Encounter (src/encounter/models.py) -/

/-- `EncounterParticipant` (lines 6-18), fields read by its serializer. -/
structure EncounterParticipant where
  type : List CodeableConcept := []
  period : Option Period := none
  actor : Option Reference := none
deriving DecidableEq

/-- `EncounterDiagnosis` (lines 34-44), fields read by its serializer. -/
structure EncounterDiagnosis where
  condition : Reference := {}
  use : List CodeableConcept := []
deriving DecidableEq

/-- `EncounterAdmission` (lines 47-71), fields read by its serializer. -/
structure EncounterAdmission where
  preAdmissionIdentifier : Option Identifier := none
  origin : Option Reference := none
  admitSource : Option CodeableConcept := none
  reAdmission : Option CodeableConcept := none
  destination : Option Reference := none
  dischargeDisposition : Option CodeableConcept := none
deriving DecidableEq

/-- `EncounterLocation` (lines 74-93), fields read by its serializer. -/
structure EncounterLocation where
  location : Reference := {}
  status : Option String := none
  form : Option CodeableConcept := none
  period : Option Period := none
deriving DecidableEq

/-- `Encounter` (src/encounter/models.py lines 96-218), restricted to the
columns and relations its `clean` and serializer read. -/
structure Encounter where
  dom : DomainData := {}
  status : String := "planned"
  class_field : CodeableConcept := {}
  priority : Option CodeableConcept := none
  subject : Option Reference := none
  actualPeriod : Option Period := none
  plannedStartDate : Option DateTime := none
  plannedEndDate : Option DateTime := none
  period : Option Period := none
  type : List CodeableConcept := []
  participants : List EncounterParticipant := []
  diagnoses : List EncounterDiagnosis := []
  admission : Option EncounterAdmission := none
  locations : List EncounterLocation := []
deriving DecidableEq

/-- The planned-date rule of `Encounter.clean` (lines 208-210): when both
dates are present (datetimes are always truthy) and start is strictly
after end, raise. -/
def encounterDateCheck (e : Encounter) : Except String Unit :=
  match e.plannedStartDate, e.plannedEndDate with
  | some s, some t =>
    if s > t then
      .error "Encounter planned start date must be before or equal to planned end date"
    else .ok ()
  | _, _ => .ok ()

/-- The status/period rule of `Encounter.clean` (lines 213-214). -/
def encounterStatusPeriodCheck (e : Encounter) : Except String Unit :=
  if (["completed", "discharged"].contains e.status) && !e.period.isSome then
    .error "Completed or discharged encounters should have a period defined"
  else .ok ()

/-- `Encounter.clean` (lines 204-214). -/
def encounterClean (e : Encounter) : Except String Unit := do
  domainResourceClean e.dom
  encounterDateCheck e
  encounterStatusPeriodCheck e

/-! ### Organization (src/organization/models.py) -/

/-- `Organization` (src/organization/models.py lines 23-71), restricted to
the columns and relations its `clean` reads: `name`, the reverse
`identifiers` relation, and the reverse `contacts` relation. -/
structure Organization where
  dom : DomainData := {}
  active : Option Bool := none
  name : Option String := none
  identifiers : List Identifier := []
  contacts : List ContactDetail := []
deriving DecidableEq

/-- Python `str.strip()`: drop leading and trailing whitespace.  (Written
by structural recursion over the character list so that it evaluates
inside the kernel.) -/
def dropLeadingWS : List Char → List Char
  | [] => []
  | c :: cs => if c.isWhitespace then dropLeadingWS cs else c :: cs

/-- Python `str.strip()` on a string value. -/
def pyStrip (s : String) : String :=
  String.mk (((dropLeadingWS s.data).reverse |> dropLeadingWS).reverse)

/-- `bool(self.name and self.name.strip())` (line 58). -/
def orgHasName (g : Organization) : Bool :=
  match g.name with
  | none => false
  | some s => s != "" && pyStrip s != ""

/-- The identity rule of `Organization.clean` (lines 56-60): a name or an
identifier is required; the identifier relation is only consulted when the
instance is persisted (`self.pk and self.identifiers.exists()`). -/
def orgIdentityCheck (g : Organization) : Except String Unit :=
  let has_identifier := pkTruthy g.dom.pk && !g.identifiers.isEmpty
  let has_name := orgHasName g
  if !(has_identifier || has_name) then
    .error "Organization must have at least a name or an identifier"
  else .ok ()

/-- The contact-telecom rule of `Organization.clean` (lines 63-67): for a
persisted instance, no contact telecom may have home use.  (The source
message quotes the word home.) -/
def orgTelecomCheck (g : Organization) : Except String Unit :=
  if pkTruthy g.dom.pk then
    if g.contacts.any (fun cd => cd.telecom.any (fun t => t.use == some "home")) then
      .error "Organization contact telecom cannot have home use"
    else .ok ()
  else .ok ()

/-- `Organization.clean` (lines 54-67). -/
def organizationClean (g : Organization) : Except String Unit := do
  domainResourceClean g.dom
  orgIdentityCheck g
  orgTelecomCheck g

/-! ### Serializers of the `components` app

Modelled from the spec: `convert_codeable_concept`, `convert_period` and
`convert_quantity` live in the `components` application, which is not
among the staged source files.  Per the spec's serialization contract
(§4.5) each produces a JSON object holding exactly the keys of the
populated fields, absent fields omitted. -/

/-- Modelled from the spec: serialize one Coding, omitting absent fields. -/
def convert_coding (c : Coding) : J :=
  .obj ((match c.system with | some s => [("system", J.str s)] | none => [])
    ++ (match c.code with | some s => [("code", J.str s)] | none => [])
    ++ (match c.display with | some s => [("display", J.str s)] | none => []))

/-- Modelled from the spec: serialize a CodeableConcept, omitting the
`coding` key when the list is empty and `text` when absent. -/
def convert_codeable_concept (cc : CodeableConcept) : J :=
  .obj ((if cc.coding.isEmpty then []
         else [("coding", J.arr (cc.coding.map convert_coding))])
    ++ (match cc.text with | some t => [("text", J.str t)] | none => []))

/-- Modelled from the spec: serialize a Period, omitting absent bounds. -/
def convert_period (p : Period) : J :=
  .obj ((match p.start with | some d => [("start", J.str (isoDT d))] | none => [])
    ++ (match p.end_ with | some d => [("end", J.str (isoDT d))] | none => []))

/-- Modelled from the spec: serialize a Quantity, omitting absent fields. -/
def convert_quantity (q : Quantity) : J :=
  .obj ((match q.value with | some v => [("value", J.int v)] | none => [])
    ++ (match q.unit with | some u => [("unit", J.str u)] | none => []))

/-! ### Observation serializer (src/observation/serializers.py) -/

/-- `convert_observation_reference_range` (lines 6-22): the dict entries in
source order (low, high, type, normalValue, text). -/
def convert_observation_reference_range (rr : ObservationReferenceRange) :
    List (String × J) :=
  (match rr.low with | some q => [("low", convert_quantity q)] | none => [])
  ++ (match rr.high with | some q => [("high", convert_quantity q)] | none => [])
  ++ (match rr.type with | some t => [("type", convert_codeable_concept t)] | none => [])
  ++ (match rr.normalValue with
      | some t => [("normalValue", convert_codeable_concept t)] | none => [])
  ++ (if strTruthy rr.text then [("text", J.str (rr.text.getD ""))] else [])

/-- The value[x] elif chain of `convert_observation_component` (lines
34-49): foreign keys, datetimes and times are truthiness-tested as objects
(present means truthy), `valueString` by string truthiness, and
`valueBoolean` / `valueInteger` with an explicit is-not-None test; the
`valueRange` branch is absent from the chain. -/
def compValueEntry (c : ObservationComponent) : List (String × J) :=
  match c.valueQuantity with
  | some q => [("valueQuantity", convert_quantity q)]
  | none =>
  match c.valueCodeableConcept with
  | some cc => [("valueCodeableConcept", convert_codeable_concept cc)]
  | none =>
  if strTruthy c.valueString then [("valueString", J.str (c.valueString.getD ""))]
  else
  match c.valueBoolean with
  | some b => [("valueBoolean", J.bool b)]
  | none =>
  match c.valueInteger with
  | some i => [("valueInteger", J.int i)]
  | none =>
  match c.valuePeriod with
  | some p => [("valuePeriod", convert_period p)]
  | none =>
  match c.valueDateTime with
  | some d => [("valueDateTime", J.str (isoDT d))]
  | none =>
  match c.valueTime with
  | some t => [("valueTime", J.str (isoTime t))]
  | none => []

/-- `convert_observation_component` (lines 25-70): code, the value[x]
chain, dataAbsentReason, then the filtered interpretation and
referenceRange lists (empty lists omitted). -/
def convert_observation_component (c : ObservationComponent) : List (String × J) :=
  [("code", convert_codeable_concept c.code)]
  ++ compValueEntry c
  ++ (match c.dataAbsentReason with
      | some r => [("dataAbsentReason", convert_codeable_concept r)] | none => [])
  ++ (let interpretations := (c.interpretation.map convert_codeable_concept).filter jTruthy
      if interpretations.isEmpty then []
      else [("interpretation", J.arr interpretations)])
  ++ (let reference_ranges :=
        (c.reference_ranges.map convert_observation_reference_range).filter
          (fun d => !d.isEmpty)
      if reference_ranges.isEmpty then []
      else [("referenceRange", J.arr (reference_ranges.map J.obj))])

/-- Lines 78-84 of `convert_observation`: the initial dict (resourceType,
status, code) and the conditional `id`. -/
def obsBaseChunk (o : Observation) : List (String × J) :=
  [("resourceType", J.str "Observation"),
   ("status", J.str o.status),
   ("code", convert_codeable_concept o.code)]
  ++ (if strTruthy o.dom.fhir_id then [("id", J.str (o.dom.fhir_id.getD ""))] else [])

/-- Lines 87-93: the filtered category list, omitted when empty. -/
def obsCategoryChunk (o : Observation) : List (String × J) :=
  let categories := (o.category.map convert_codeable_concept).filter jTruthy
  if categories.isEmpty then [] else [("category", J.arr categories)]

/-- Lines 96-97: subject as a one-field reference object. -/
def obsSubjectChunk (o : Observation) : List (String × J) :=
  match o.subject with
  | some r => [("subject", J.obj [("reference", J.str r.reference)])]
  | none => []

/-- Lines 100-101: encounter reference built from the linked Encounter's
`fhir_id` by f-string interpolation. -/
def obsEncounterChunk (o : Observation) : List (String × J) :=
  match o.encounter with
  | some e => [("encounter", J.obj [("reference", J.str ("Encounter/" ++ pyStr e.fhir_id))])]
  | none => []

/-- Lines 103-109: the effective[x] elif chain. -/
def obsEffectiveEntry (o : Observation) : List (String × J) :=
  match o.effectiveDateTime with
  | some d => [("effectiveDateTime", J.str (isoDT d))]
  | none =>
  match o.effectiveInstant with
  | some d => [("effectiveInstant", J.str (isoDT d))]
  | none =>
  match o.effectivePeriod with
  | some p => [("effectivePeriod", convert_period p)]
  | none => []

/-- Lines 111-112: issued. -/
def obsIssuedChunk (o : Observation) : List (String × J) :=
  match o.issued with
  | some d => [("issued", J.str (isoDT d))]
  | none => []

/-- Lines 114-130: the value[x] elif chain of `convert_observation`; same
branch order and truthiness tests as the component chain, and likewise no
`valueRange` branch. -/
def obsValueEntry (o : Observation) : List (String × J) :=
  match o.valueQuantity with
  | some q => [("valueQuantity", convert_quantity q)]
  | none =>
  match o.valueCodeableConcept with
  | some cc => [("valueCodeableConcept", convert_codeable_concept cc)]
  | none =>
  if strTruthy o.valueString then [("valueString", J.str (o.valueString.getD ""))]
  else
  match o.valueBoolean with
  | some b => [("valueBoolean", J.bool b)]
  | none =>
  match o.valueInteger with
  | some i => [("valueInteger", J.int i)]
  | none =>
  match o.valuePeriod with
  | some p => [("valuePeriod", convert_period p)]
  | none =>
  match o.valueDateTime with
  | some d => [("valueDateTime", J.str (isoDT d))]
  | none =>
  match o.valueTime with
  | some t => [("valueTime", J.str (isoTime t))]
  | none => []

/-- Lines 132-133: dataAbsentReason. -/
def obsDarChunk (o : Observation) : List (String × J) :=
  match o.dataAbsentReason with
  | some r => [("dataAbsentReason", convert_codeable_concept r)]
  | none => []

/-- Lines 136-142: the filtered interpretation list, omitted when empty. -/
def obsInterpChunk (o : Observation) : List (String × J) :=
  let interpretations := (o.interpretation.map convert_codeable_concept).filter jTruthy
  if interpretations.isEmpty then [] else [("interpretation", J.arr interpretations)]

/-- Lines 144-145: the raw JSON note, included only when truthy. -/
def obsNoteChunk (o : Observation) : List (String × J) :=
  if jTruthy o.note then [("note", o.note)] else []

/-- Lines 147-148: bodySite. -/
def obsBodySiteChunk (o : Observation) : List (String × J) :=
  match o.bodySite with
  | some b => [("bodySite", convert_codeable_concept b)]
  | none => []

/-- Lines 150-151: method. -/
def obsMethodChunk (o : Observation) : List (String × J) :=
  match o.method with
  | some m => [("method", convert_codeable_concept m)]
  | none => []

/-- Lines 153-160: reference ranges whose converted dict is truthy,
omitted when none remain. -/
def obsRefRangeChunk (o : Observation) : List (String × J) :=
  let reference_ranges :=
    (o.reference_ranges.map convert_observation_reference_range).filter
      (fun d => !d.isEmpty)
  if reference_ranges.isEmpty then []
  else [("referenceRange", J.arr (reference_ranges.map J.obj))]

/-- Lines 162-169: converted components (each converted dict is truthy,
holding at least `code`), omitted when none. -/
def obsComponentChunk (o : Observation) : List (String × J) :=
  let obs_components :=
    (o.components.map convert_observation_component).filter (fun d => !d.isEmpty)
  if obs_components.isEmpty then []
  else [("component", J.arr (obs_components.map J.obj))]

/-- `convert_observation` (lines 73-171): the dict entries in insertion
order. -/
def convert_observation (o : Observation) : List (String × J) :=
  obsBaseChunk o ++ obsCategoryChunk o ++ obsSubjectChunk o ++ obsEncounterChunk o
  ++ obsEffectiveEntry o ++ obsIssuedChunk o ++ obsValueEntry o ++ obsDarChunk o
  ++ obsInterpChunk o ++ obsNoteChunk o ++ obsBodySiteChunk o ++ obsMethodChunk o
  ++ obsRefRangeChunk o ++ obsComponentChunk o

/-! ### Encounter serializer (src/encounter/serializers.py) -/

/-- `convert_encounter_participant` (lines 6-26): type list (filtered,
omitted when empty), period, actor; the result can be the empty dict. -/
def convert_encounter_participant (p : EncounterParticipant) : List (String × J) :=
  (let types := (p.type.map convert_codeable_concept).filter jTruthy
   if types.isEmpty then [] else [("type", J.arr types)])
  ++ (match p.period with | some pd => [("period", convert_period pd)] | none => [])
  ++ (match p.actor with
      | some a => [("actor", J.obj [("reference", J.str a.reference)])] | none => [])

/-- `convert_encounter_diagnosis` (lines 29-46): a one-element condition
reference list, then the filtered use list. -/
def convert_encounter_diagnosis (d : EncounterDiagnosis) : List (String × J) :=
  [("condition", J.arr [J.obj [("reference", J.str d.condition.reference)]])]
  ++ (let uses := (d.use.map convert_codeable_concept).filter jTruthy
      if uses.isEmpty then [] else [("use", J.arr uses)])

/-- `convert_encounter_admission` (lines 49-66): the dict entries in
source order; the result can be the empty dict. -/
def convert_encounter_admission (a : EncounterAdmission) : List (String × J) :=
  (match a.admitSource with
   | some s => [("admitSource", convert_codeable_concept s)] | none => [])
  ++ (match a.reAdmission with
      | some r => [("reAdmission", convert_codeable_concept r)] | none => [])
  ++ (match a.dischargeDisposition with
      | some dd => [("dischargeDisposition", convert_codeable_concept dd)] | none => [])
  ++ (match a.origin with
      | some o => [("origin", J.obj [("reference", J.str o.reference)])] | none => [])
  ++ (match a.destination with
      | some ds => [("destination", J.obj [("reference", J.str ds.reference)])] | none => [])

/-- `convert_encounter_location` (lines 69-84): location reference, then
status, form, period. -/
def convert_encounter_location (l : EncounterLocation) : List (String × J) :=
  [("location", J.obj [("reference", J.str l.location.reference)])]
  ++ (match l.status with | some s => [("status", J.str s)] | none => [])
  ++ (match l.form with | some f => [("form", convert_codeable_concept f)] | none => [])
  ++ (match l.period with | some pd => [("period", convert_period pd)] | none => [])

/-- Lines 92-98 of `convert_encounter`: the initial dict (resourceType,
status, the one-element class list) and the conditional `id`. -/
def encBaseChunk (e : Encounter) : List (String × J) :=
  [("resourceType", J.str "Encounter"),
   ("status", J.str e.status),
   ("class", J.arr [convert_codeable_concept e.class_field])]
  ++ (if strTruthy e.dom.fhir_id then [("id", J.str (e.dom.fhir_id.getD ""))] else [])

/-- Lines 100-101: priority. -/
def encPriorityChunk (e : Encounter) : List (String × J) :=
  match e.priority with
  | some p => [("priority", convert_codeable_concept p)]
  | none => []

/-- Lines 103-104: subject. -/
def encSubjectChunk (e : Encounter) : List (String × J) :=
  match e.subject with
  | some r => [("subject", J.obj [("reference", J.str r.reference)])]
  | none => []

/-- Lines 106-107: actualPeriod. -/
def encActualPeriodChunk (e : Encounter) : List (String × J) :=
  match e.actualPeriod with
  | some p => [("actualPeriod", convert_period p)]
  | none => []

/-- Lines 109-110: plannedStartDate. -/
def encPlannedStartChunk (e : Encounter) : List (String × J) :=
  match e.plannedStartDate with
  | some d => [("plannedStartDate", J.str (isoDT d))]
  | none => []

/-- Lines 112-113: plannedEndDate. -/
def encPlannedEndChunk (e : Encounter) : List (String × J) :=
  match e.plannedEndDate with
  | some d => [("plannedEndDate", J.str (isoDT d))]
  | none => []

/-- Lines 116-122: the filtered type list, omitted when empty. -/
def encTypeChunk (e : Encounter) : List (String × J) :=
  let types := (e.type.map convert_codeable_concept).filter jTruthy
  if types.isEmpty then [] else [("type", J.arr types)]

/-- Lines 125-131: participants whose converted dict is truthy, omitted
when none remain. -/
def encParticipantChunk (e : Encounter) : List (String × J) :=
  let participants :=
    (e.participants.map convert_encounter_participant).filter (fun d => !d.isEmpty)
  if participants.isEmpty then []
  else [("participant", J.arr (participants.map J.obj))]

/-- Lines 134-140: diagnoses (each converted dict holds `condition`, hence
is truthy), omitted when none. -/
def encDiagnosisChunk (e : Encounter) : List (String × J) :=
  let diagnoses :=
    (e.diagnoses.map convert_encounter_diagnosis).filter (fun d => !d.isEmpty)
  if diagnoses.isEmpty then []
  else [("diagnosis", J.arr (diagnoses.map J.obj))]

/-- Lines 143-149: the one-to-one admission, included only when present
and its converted dict is truthy. -/
def encAdmissionChunk (e : Encounter) : List (String × J) :=
  match e.admission with
  | some a =>
    let d := convert_encounter_admission a
    if d.isEmpty then [] else [("admission", J.obj d)]
  | none => []

/-- Lines 152-158: locations (each converted dict holds `location`, hence
is truthy), omitted when none. -/
def encLocationChunk (e : Encounter) : List (String × J) :=
  let locations :=
    (e.locations.map convert_encounter_location).filter (fun d => !d.isEmpty)
  if locations.isEmpty then []
  else [("location", J.arr (locations.map J.obj))]

/-- `convert_encounter` (lines 87-160): the dict entries in insertion
order. -/
def convert_encounter (e : Encounter) : List (String × J) :=
  encBaseChunk e ++ encPriorityChunk e ++ encSubjectChunk e ++ encActualPeriodChunk e
  ++ encPlannedStartChunk e ++ encPlannedEndChunk e ++ encTypeChunk e
  ++ encParticipantChunk e ++ encDiagnosisChunk e ++ encAdmissionChunk e
  ++ encLocationChunk e

/-! ### Key-level serialization contract (spec side)

The following definitions restate §4.5 of the spec at the level of output
keys: which keys the wire document holds, as a function of which fields
are populated under the serializer's own populatedness test.  They are the
spec side of the refinement; the theorems below compare them with the
serializers embedded above. -/

/-- The keys of a wire document, in emission order. -/
def keysOf (l : List (String × J)) : List String := l.map Prod.fst

/-- A conditionally present key. -/
def optKey (b : Bool) (k : String) : List String := if b then [k] else []

/-- The effective[x] branch `convert_observation` serializes: the first
branch of the fixed priority order whose field is populated. -/
def obsSerEffectiveBranch (o : Observation) : Option String :=
  ((([("effectiveDateTime", o.effectiveDateTime.isSome),
      ("effectiveInstant", o.effectiveInstant.isSome),
      ("effectivePeriod", o.effectivePeriod.isSome)] : List (String × Bool)).find?
        (fun p => p.2)).map Prod.fst)

/-- The value[x] branch `convert_observation` serializes: the first branch
of the fixed priority order whose field is populated under the
serializer's test — truthiness for the string branch, presence for the
others; `valueRange` has no branch in the serializer at all. -/
def obsSerValueBranch (o : Observation) : Option String :=
  ((([("valueQuantity", o.valueQuantity.isSome),
      ("valueCodeableConcept", o.valueCodeableConcept.isSome),
      ("valueString", strTruthy o.valueString),
      ("valueBoolean", o.valueBoolean.isSome),
      ("valueInteger", o.valueInteger.isSome),
      ("valuePeriod", o.valuePeriod.isSome),
      ("valueDateTime", o.valueDateTime.isSome),
      ("valueTime", o.valueTime.isSome)] : List (String × Bool)).find?
        (fun p => p.2)).map Prod.fst)

/-- §4.5 for `convert_observation`, keys only: required keys first, each
optional key present exactly when its field is populated under the
serializer's test, each choice group contributing its serialized branch,
and each multi-valued relationship only when some member converts to a
truthy document. -/
def obsKeySpec (o : Observation) : List String :=
  ["resourceType", "status", "code"]
  ++ optKey (strTruthy o.dom.fhir_id) "id"
  ++ optKey (o.category.any fun cc => jTruthy (convert_codeable_concept cc)) "category"
  ++ optKey o.subject.isSome "subject"
  ++ optKey o.encounter.isSome "encounter"
  ++ (obsSerEffectiveBranch o).toList
  ++ optKey o.issued.isSome "issued"
  ++ (obsSerValueBranch o).toList
  ++ optKey o.dataAbsentReason.isSome "dataAbsentReason"
  ++ optKey (o.interpretation.any fun cc => jTruthy (convert_codeable_concept cc))
      "interpretation"
  ++ optKey (jTruthy o.note) "note"
  ++ optKey o.bodySite.isSome "bodySite"
  ++ optKey o.method.isSome "method"
  ++ optKey (o.reference_ranges.any
      fun rr => !(convert_observation_reference_range rr).isEmpty) "referenceRange"
  ++ optKey (o.components.any
      fun c => !(convert_observation_component c).isEmpty) "component"

/-- §4.5 for `convert_encounter`, keys only. -/
def encKeySpec (e : Encounter) : List String :=
  ["resourceType", "status", "class"]
  ++ optKey (strTruthy e.dom.fhir_id) "id"
  ++ optKey e.priority.isSome "priority"
  ++ optKey e.subject.isSome "subject"
  ++ optKey e.actualPeriod.isSome "actualPeriod"
  ++ optKey e.plannedStartDate.isSome "plannedStartDate"
  ++ optKey e.plannedEndDate.isSome "plannedEndDate"
  ++ optKey (e.type.any fun cc => jTruthy (convert_codeable_concept cc)) "type"
  ++ optKey (e.participants.any
      fun p => !(convert_encounter_participant p).isEmpty) "participant"
  ++ optKey (e.diagnoses.any
      fun d => !(convert_encounter_diagnosis d).isEmpty) "diagnosis"
  ++ optKey (match e.admission with
      | some a => !(convert_encounter_admission a).isEmpty
      | none => false) "admission"
  ++ optKey (e.locations.any
      fun l => !(convert_encounter_location l).isEmpty) "location"

/-- No entry of the wire document carries a JSON null value. -/
def noNullValues (l : List (String × J)) : Prop := ∀ kv ∈ l, kv.2 ≠ J.null

/-! ### Helper lemmas for the serialization theorems -/

theorem keysOf_append (a b : List (String × J)) :
    keysOf (a ++ b) = keysOf a ++ keysOf b := List.map_append _ _ _

theorem filterMap_isEmpty_eq {α β : Type} (l : List α) (f : α → β) (p : β → Bool) :
    ((l.map f).filter p).isEmpty = !(l.any fun a => p (f a)) := by
  induction l with
  | nil => rfl
  | cons a t ih =>
    simp only [List.map_cons, List.filter_cons, List.any_cons]
    cases p (f a) <;> simp [ih]

theorem noNullValues_append {a b : List (String × J)}
    (ha : noNullValues a) (hb : noNullValues b) : noNullValues (a ++ b) := by
  intro kv hm
  rcases List.mem_append.mp hm with h | h
  · exact ha kv h
  · exact hb kv h

theorem noNullValues_nil : noNullValues [] := by
  intro kv hm
  cases hm

theorem convert_coding_ne_null (c : Coding) : convert_coding c ≠ J.null := by
  unfold convert_coding
  intro h
  cases h

theorem convert_codeable_concept_ne_null (cc : CodeableConcept) :
    convert_codeable_concept cc ≠ J.null := by
  unfold convert_codeable_concept
  intro h
  cases h

theorem convert_period_ne_null (p : Period) : convert_period p ≠ J.null := by
  unfold convert_period
  intro h
  cases h

theorem convert_quantity_ne_null (q : Quantity) : convert_quantity q ≠ J.null := by
  unfold convert_quantity
  intro h
  cases h

theorem keysOf_obsBaseChunk (o : Observation) :
    keysOf (obsBaseChunk o)
      = ["resourceType", "status", "code"] ++ optKey (strTruthy o.dom.fhir_id) "id" := by
  unfold obsBaseChunk optKey
  cases h : strTruthy o.dom.fhir_id <;> simp [keysOf]

theorem keysOf_obsCategoryChunk (o : Observation) :
    keysOf (obsCategoryChunk o)
      = optKey (o.category.any fun cc => jTruthy (convert_codeable_concept cc))
          "category" := by
  unfold obsCategoryChunk optKey
  cases h : o.category.any (fun cc => jTruthy (convert_codeable_concept cc)) <;>
    simp [keysOf, filterMap_isEmpty_eq, h]

theorem keysOf_obsSubjectChunk (o : Observation) :
    keysOf (obsSubjectChunk o) = optKey o.subject.isSome "subject" := by
  unfold obsSubjectChunk optKey
  cases o.subject <;> simp [keysOf]

theorem keysOf_obsEncounterChunk (o : Observation) :
    keysOf (obsEncounterChunk o) = optKey o.encounter.isSome "encounter" := by
  unfold obsEncounterChunk optKey
  cases o.encounter <;> simp [keysOf]

theorem keysOf_obsEffectiveEntry (o : Observation) :
    keysOf (obsEffectiveEntry o) = (obsSerEffectiveBranch o).toList := by
  unfold obsEffectiveEntry obsSerEffectiveBranch
  cases o.effectiveDateTime with
  | some d => simp [keysOf, List.find?]
  | none =>
    cases o.effectiveInstant with
    | some d => simp [keysOf, List.find?]
    | none =>
      cases o.effectivePeriod with
      | some p => simp [keysOf, List.find?]
      | none => simp [keysOf, List.find?]

theorem keysOf_obsIssuedChunk (o : Observation) :
    keysOf (obsIssuedChunk o) = optKey o.issued.isSome "issued" := by
  unfold obsIssuedChunk optKey
  cases o.issued <;> simp [keysOf]

theorem keysOf_obsValueEntry (o : Observation) :
    keysOf (obsValueEntry o) = (obsSerValueBranch o).toList := by
  unfold obsValueEntry obsSerValueBranch
  cases o.valueQuantity with
  | some q => simp [keysOf, List.find?]
  | none =>
  cases o.valueCodeableConcept with
  | some cc => simp [keysOf, List.find?]
  | none =>
  cases h : strTruthy o.valueString with
  | true => simp [keysOf, List.find?, h]
  | false =>
  cases o.valueBoolean with
  | some b => simp [keysOf, List.find?, h]
  | none =>
  cases o.valueInteger with
  | some i => simp [keysOf, List.find?, h]
  | none =>
  cases o.valuePeriod with
  | some p => simp [keysOf, List.find?, h]
  | none =>
  cases o.valueDateTime with
  | some d => simp [keysOf, List.find?, h]
  | none =>
  cases o.valueTime with
  | some t => simp [keysOf, List.find?, h]
  | none => simp [keysOf, List.find?, h]

theorem keysOf_obsDarChunk (o : Observation) :
    keysOf (obsDarChunk o) = optKey o.dataAbsentReason.isSome "dataAbsentReason" := by
  unfold obsDarChunk optKey
  cases o.dataAbsentReason <;> simp [keysOf]

theorem keysOf_obsInterpChunk (o : Observation) :
    keysOf (obsInterpChunk o)
      = optKey (o.interpretation.any fun cc => jTruthy (convert_codeable_concept cc))
          "interpretation" := by
  unfold obsInterpChunk optKey
  cases h : o.interpretation.any (fun cc => jTruthy (convert_codeable_concept cc)) <;>
    simp [keysOf, filterMap_isEmpty_eq, h]

theorem keysOf_obsNoteChunk (o : Observation) :
    keysOf (obsNoteChunk o) = optKey (jTruthy o.note) "note" := by
  unfold obsNoteChunk optKey
  cases h : jTruthy o.note <;> simp [keysOf]

theorem keysOf_obsBodySiteChunk (o : Observation) :
    keysOf (obsBodySiteChunk o) = optKey o.bodySite.isSome "bodySite" := by
  unfold obsBodySiteChunk optKey
  cases o.bodySite <;> simp [keysOf]

theorem keysOf_obsMethodChunk (o : Observation) :
    keysOf (obsMethodChunk o) = optKey o.method.isSome "method" := by
  unfold obsMethodChunk optKey
  cases o.method <;> simp [keysOf]

theorem keysOf_obsRefRangeChunk (o : Observation) :
    keysOf (obsRefRangeChunk o)
      = optKey (o.reference_ranges.any
          fun rr => !(convert_observation_reference_range rr).isEmpty)
          "referenceRange" := by
  unfold obsRefRangeChunk optKey
  cases h : o.reference_ranges.any
      (fun rr => !(convert_observation_reference_range rr).isEmpty) <;>
    simp [keysOf, filterMap_isEmpty_eq, h]

theorem keysOf_obsComponentChunk (o : Observation) :
    keysOf (obsComponentChunk o)
      = optKey (o.components.any
          fun c => !(convert_observation_component c).isEmpty) "component" := by
  unfold obsComponentChunk optKey
  cases h : o.components.any (fun c => !(convert_observation_component c).isEmpty) <;>
    simp [keysOf, filterMap_isEmpty_eq, h]

theorem keysOf_convert_observation (o : Observation) :
    keysOf (convert_observation o) = obsKeySpec o := by
  simp only [convert_observation, keysOf_append, keysOf_obsBaseChunk,
    keysOf_obsCategoryChunk, keysOf_obsSubjectChunk, keysOf_obsEncounterChunk,
    keysOf_obsEffectiveEntry, keysOf_obsIssuedChunk, keysOf_obsValueEntry,
    keysOf_obsDarChunk, keysOf_obsInterpChunk, keysOf_obsNoteChunk,
    keysOf_obsBodySiteChunk, keysOf_obsMethodChunk, keysOf_obsRefRangeChunk,
    keysOf_obsComponentChunk, obsKeySpec]

theorem keysOf_encBaseChunk (e : Encounter) :
    keysOf (encBaseChunk e)
      = ["resourceType", "status", "class"] ++ optKey (strTruthy e.dom.fhir_id) "id" := by
  unfold encBaseChunk optKey
  cases h : strTruthy e.dom.fhir_id <;> simp [keysOf]

theorem keysOf_encPriorityChunk (e : Encounter) :
    keysOf (encPriorityChunk e) = optKey e.priority.isSome "priority" := by
  unfold encPriorityChunk optKey
  cases e.priority <;> simp [keysOf]

theorem keysOf_encSubjectChunk (e : Encounter) :
    keysOf (encSubjectChunk e) = optKey e.subject.isSome "subject" := by
  unfold encSubjectChunk optKey
  cases e.subject <;> simp [keysOf]

theorem keysOf_encActualPeriodChunk (e : Encounter) :
    keysOf (encActualPeriodChunk e) = optKey e.actualPeriod.isSome "actualPeriod" := by
  unfold encActualPeriodChunk optKey
  cases e.actualPeriod <;> simp [keysOf]

theorem keysOf_encPlannedStartChunk (e : Encounter) :
    keysOf (encPlannedStartChunk e)
      = optKey e.plannedStartDate.isSome "plannedStartDate" := by
  unfold encPlannedStartChunk optKey
  cases e.plannedStartDate <;> simp [keysOf]

theorem keysOf_encPlannedEndChunk (e : Encounter) :
    keysOf (encPlannedEndChunk e) = optKey e.plannedEndDate.isSome "plannedEndDate" := by
  unfold encPlannedEndChunk optKey
  cases e.plannedEndDate <;> simp [keysOf]

theorem keysOf_encTypeChunk (e : Encounter) :
    keysOf (encTypeChunk e)
      = optKey (e.type.any fun cc => jTruthy (convert_codeable_concept cc)) "type" := by
  unfold encTypeChunk optKey
  cases h : e.type.any (fun cc => jTruthy (convert_codeable_concept cc)) <;>
    simp [keysOf, filterMap_isEmpty_eq, h]

theorem keysOf_encParticipantChunk (e : Encounter) :
    keysOf (encParticipantChunk e)
      = optKey (e.participants.any
          fun p => !(convert_encounter_participant p).isEmpty) "participant" := by
  unfold encParticipantChunk optKey
  cases h : e.participants.any
      (fun p => !(convert_encounter_participant p).isEmpty) <;>
    simp [keysOf, filterMap_isEmpty_eq, h]

theorem keysOf_encDiagnosisChunk (e : Encounter) :
    keysOf (encDiagnosisChunk e)
      = optKey (e.diagnoses.any
          fun d => !(convert_encounter_diagnosis d).isEmpty) "diagnosis" := by
  unfold encDiagnosisChunk optKey
  cases h : e.diagnoses.any (fun d => !(convert_encounter_diagnosis d).isEmpty) <;>
    simp [keysOf, filterMap_isEmpty_eq, h]

theorem keysOf_encAdmissionChunk (e : Encounter) :
    keysOf (encAdmissionChunk e)
      = optKey (match e.admission with
          | some a => !(convert_encounter_admission a).isEmpty
          | none => false) "admission" := by
  unfold encAdmissionChunk optKey
  cases e.admission with
  | some a =>
    cases h : (convert_encounter_admission a).isEmpty <;> simp [keysOf, h]
  | none => simp [keysOf]

theorem keysOf_encLocationChunk (e : Encounter) :
    keysOf (encLocationChunk e)
      = optKey (e.locations.any
          fun l => !(convert_encounter_location l).isEmpty) "location" := by
  unfold encLocationChunk optKey
  cases h : e.locations.any (fun l => !(convert_encounter_location l).isEmpty) <;>
    simp [keysOf, filterMap_isEmpty_eq, h]

theorem keysOf_convert_encounter (e : Encounter) :
    keysOf (convert_encounter e) = encKeySpec e := by
  simp only [convert_encounter, keysOf_append, keysOf_encBaseChunk,
    keysOf_encPriorityChunk, keysOf_encSubjectChunk, keysOf_encActualPeriodChunk,
    keysOf_encPlannedStartChunk, keysOf_encPlannedEndChunk, keysOf_encTypeChunk,
    keysOf_encParticipantChunk, keysOf_encDiagnosisChunk, keysOf_encAdmissionChunk,
    keysOf_encLocationChunk, encKeySpec]

theorem noNullValues_cons {k : String} {v : J} {l : List (String × J)}
    (hv : v ≠ J.null) (hl : noNullValues l) : noNullValues ((k, v) :: l) := by
  intro kv hm
  rcases List.mem_cons.mp hm with h | h
  · subst h
    exact hv
  · exact hl kv h

theorem jTruthy_ne_null {j : J} (h : jTruthy j = true) : j ≠ J.null := by
  intro hn
  subst hn
  simp [jTruthy] at h

theorem noNull_obsBaseChunk (o : Observation) : noNullValues (obsBaseChunk o) := by
  unfold obsBaseChunk
  cases h : strTruthy o.dom.fhir_id <;>
    simp only [if_pos, if_neg, Bool.false_eq_true, ite_false, ite_true,
      List.append_nil] <;>
    exact noNullValues_cons (by simp)
      (noNullValues_cons (by simp)
        (noNullValues_cons (convert_codeable_concept_ne_null _)
          (by first
            | exact noNullValues_nil
            | exact noNullValues_cons (by simp) noNullValues_nil)))

theorem noNull_obsCategoryChunk (o : Observation) : noNullValues (obsCategoryChunk o) := by
  simp only [obsCategoryChunk]
  split
  · exact noNullValues_nil
  · exact noNullValues_cons (by simp) noNullValues_nil

theorem noNull_obsSubjectChunk (o : Observation) : noNullValues (obsSubjectChunk o) := by
  unfold obsSubjectChunk
  cases o.subject with
  | some r => exact noNullValues_cons (by simp) noNullValues_nil
  | none => exact noNullValues_nil

theorem noNull_obsEncounterChunk (o : Observation) :
    noNullValues (obsEncounterChunk o) := by
  unfold obsEncounterChunk
  cases o.encounter with
  | some e => exact noNullValues_cons (by simp) noNullValues_nil
  | none => exact noNullValues_nil

theorem noNull_obsEffectiveEntry (o : Observation) :
    noNullValues (obsEffectiveEntry o) := by
  unfold obsEffectiveEntry
  cases o.effectiveDateTime with
  | some d => exact noNullValues_cons (by simp) noNullValues_nil
  | none =>
  cases o.effectiveInstant with
  | some d => exact noNullValues_cons (by simp) noNullValues_nil
  | none =>
  cases o.effectivePeriod with
  | some p => exact noNullValues_cons (convert_period_ne_null _) noNullValues_nil
  | none => exact noNullValues_nil

theorem noNull_obsIssuedChunk (o : Observation) : noNullValues (obsIssuedChunk o) := by
  unfold obsIssuedChunk
  cases o.issued with
  | some d => exact noNullValues_cons (by simp) noNullValues_nil
  | none => exact noNullValues_nil

theorem noNull_obsValueEntry (o : Observation) : noNullValues (obsValueEntry o) := by
  unfold obsValueEntry
  cases o.valueQuantity with
  | some q => exact noNullValues_cons (convert_quantity_ne_null _) noNullValues_nil
  | none =>
  cases o.valueCodeableConcept with
  | some cc => exact noNullValues_cons (convert_codeable_concept_ne_null _) noNullValues_nil
  | none =>
  cases h : strTruthy o.valueString with
  | true => simp only [if_pos]; exact noNullValues_cons (by simp) noNullValues_nil
  | false =>
  simp only [Bool.false_eq_true, ite_false]
  cases o.valueBoolean with
  | some b => exact noNullValues_cons (by simp) noNullValues_nil
  | none =>
  cases o.valueInteger with
  | some i => exact noNullValues_cons (by simp) noNullValues_nil
  | none =>
  cases o.valuePeriod with
  | some p => exact noNullValues_cons (convert_period_ne_null _) noNullValues_nil
  | none =>
  cases o.valueDateTime with
  | some d => exact noNullValues_cons (by simp) noNullValues_nil
  | none =>
  cases o.valueTime with
  | some t => exact noNullValues_cons (by simp) noNullValues_nil
  | none => exact noNullValues_nil

theorem noNull_obsDarChunk (o : Observation) : noNullValues (obsDarChunk o) := by
  unfold obsDarChunk
  cases o.dataAbsentReason with
  | some r => exact noNullValues_cons (convert_codeable_concept_ne_null _) noNullValues_nil
  | none => exact noNullValues_nil

theorem noNull_obsInterpChunk (o : Observation) : noNullValues (obsInterpChunk o) := by
  simp only [obsInterpChunk]
  split
  · exact noNullValues_nil
  · exact noNullValues_cons (by simp) noNullValues_nil

theorem noNull_obsNoteChunk (o : Observation) : noNullValues (obsNoteChunk o) := by
  unfold obsNoteChunk
  cases h : jTruthy o.note with
  | true =>
    simp only [if_pos]
    exact noNullValues_cons (jTruthy_ne_null h) noNullValues_nil
  | false => simp only [Bool.false_eq_true, ite_false]; exact noNullValues_nil

theorem noNull_obsBodySiteChunk (o : Observation) :
    noNullValues (obsBodySiteChunk o) := by
  unfold obsBodySiteChunk
  cases o.bodySite with
  | some b => exact noNullValues_cons (convert_codeable_concept_ne_null _) noNullValues_nil
  | none => exact noNullValues_nil

theorem noNull_obsMethodChunk (o : Observation) : noNullValues (obsMethodChunk o) := by
  unfold obsMethodChunk
  cases o.method with
  | some m => exact noNullValues_cons (convert_codeable_concept_ne_null _) noNullValues_nil
  | none => exact noNullValues_nil

theorem noNull_obsRefRangeChunk (o : Observation) :
    noNullValues (obsRefRangeChunk o) := by
  simp only [obsRefRangeChunk]
  split
  · exact noNullValues_nil
  · exact noNullValues_cons (by simp) noNullValues_nil

theorem noNull_obsComponentChunk (o : Observation) :
    noNullValues (obsComponentChunk o) := by
  simp only [obsComponentChunk]
  split
  · exact noNullValues_nil
  · exact noNullValues_cons (by simp) noNullValues_nil

theorem noNull_convert_observation (o : Observation) :
    noNullValues (convert_observation o) := by
  unfold convert_observation
  exact noNullValues_append (noNullValues_append (noNullValues_append
    (noNullValues_append (noNullValues_append (noNullValues_append
      (noNullValues_append (noNullValues_append (noNullValues_append
        (noNullValues_append (noNullValues_append (noNullValues_append
          (noNullValues_append (noNull_obsBaseChunk o) (noNull_obsCategoryChunk o))
          (noNull_obsSubjectChunk o)) (noNull_obsEncounterChunk o))
        (noNull_obsEffectiveEntry o)) (noNull_obsIssuedChunk o))
      (noNull_obsValueEntry o)) (noNull_obsDarChunk o)) (noNull_obsInterpChunk o))
    (noNull_obsNoteChunk o)) (noNull_obsBodySiteChunk o)) (noNull_obsMethodChunk o))
    (noNull_obsRefRangeChunk o)) (noNull_obsComponentChunk o)

/-! ### Helper lemmas for the validation theorems -/

theorem exceptBind_ok {a : Except String Unit} {f : Unit → Except String Unit} :
    (a >>= f) = .ok () ↔ a = .ok () ∧ f () = .ok () := by
  cases a with
  | error e => simp [Bind.bind, Except.bind]
  | ok v => cases v; simp [Bind.bind, Except.bind]

theorem ifError_ok_iff (c : Prop) [Decidable c] (msg : String) :
    ((if c then Except.error msg else Except.ok ()) = Except.ok ()) ↔ ¬ c := by
  split <;> simp [*]

theorem observationClean_ok_iff (o : Observation) :
    observationClean o = .ok ()
      ↔ domainResourceClean o.dom = .ok () ∧ obsEffectiveCheck o = .ok ()
        ∧ obsValueCheck o = .ok () ∧ obsDarCheck o = .ok () := by
  simp only [observationClean, exceptBind_ok]

theorem encounterClean_ok_iff (e : Encounter) :
    encounterClean e = .ok ()
      ↔ domainResourceClean e.dom = .ok () ∧ encounterDateCheck e = .ok ()
        ∧ encounterStatusPeriodCheck e = .ok () := by
  simp only [encounterClean, exceptBind_ok]

theorem organizationClean_ok_iff (g : Organization) :
    organizationClean g = .ok ()
      ↔ domainResourceClean g.dom = .ok () ∧ orgIdentityCheck g = .ok ()
        ∧ orgTelecomCheck g = .ok () := by
  simp only [organizationClean, exceptBind_ok]

theorem extensionClean_ok_iff (e : Extension) :
    extensionClean e = .ok () ↔ (extensionSetValues e).length ≤ 1 := by
  unfold extensionClean
  rw [ifError_ok_iff]
  omega

theorem obsValueCheck_ok_iff (o : Observation) :
    obsValueCheck o = .ok () ↔ (obsSetValues o).length ≤ 1 := by
  unfold obsValueCheck
  rw [ifError_ok_iff]
  omega

theorem obsEffectiveCheck_ok_iff (o : Observation) :
    obsEffectiveCheck o = .ok () ↔ (obsEffectiveSet o).length ≤ 1 := by
  unfold obsEffectiveCheck
  rw [ifError_ok_iff]
  omega

theorem compValueCheck_ok_iff (c : ObservationComponent) :
    compValueCheck c = .ok () ↔ (compSetValues c).length ≤ 1 := by
  unfold compValueCheck
  rw [ifError_ok_iff]
  omega

theorem versionAlgorithmCheck_ok_iff (c : CanonicalResourceData) :
    versionAlgorithmCheck c = .ok ()
      ↔ ¬(strTruthy c.versionAlgorithmString = true
          ∧ c.versionAlgorithmCoding.isSome = true) := by
  unfold versionAlgorithmCheck
  rw [ifError_ok_iff]
  simp

theorem exceptBind_eq_error {a : Except String Unit} {f : Unit → Except String Unit}
    {msg : String} :
    (a >>= f) = .error msg ↔ a = .error msg ∨ (a = .ok () ∧ f () = .error msg) := by
  cases a with
  | error e => simp [Bind.bind, Except.bind]
  | ok v => cases v; simp [Bind.bind, Except.bind]

theorem clean_ne_ok_of_eq_error {x : Except String Unit} {m : String}
    (h : x = .error m) : x ≠ .ok () := by
  intro hk
  rw [h] at hk
  exact Except.noConfusion hk

/-- The nine value[x] wire names of the Observation choice group. -/
def obsValueKeyNames : List String :=
  ["valueQuantity", "valueCodeableConcept", "valueString", "valueBoolean",
   "valueInteger", "valueRange", "valuePeriod", "valueDateTime", "valueTime"]

theorem optKey_all (b : Bool) (k : String) (P : String → Bool) :
    (optKey b k).all P = (!b || P k) := by
  cases b <;> simp [optKey]

theorem effBranch_not_valueKey (o : Observation) :
    (obsSerEffectiveBranch o).toList.all
      (fun k => !(obsValueKeyNames.contains k)) = true := by
  unfold obsSerEffectiveBranch
  cases o.effectiveDateTime <;> cases o.effectiveInstant <;>
    cases o.effectivePeriod <;> rfl

/-! ### Concrete instances used to witness the rules -/

/-- A concrete CodeableConcept (a required `code` for observations). -/
def ccBP : CodeableConcept := { text := some "BP" }

/-- A CanonicalResource with a non-null but empty versionAlgorithmString
and a set versionAlgorithmCoding: both choice branches are non-null. -/
def canonVA : CanonicalResourceData :=
  { versionAlgorithmString := some "", versionAlgorithmCoding := some {} }

/-- A not-yet-persisted Element carrying an extension but no fhir_id. -/
def elemUnsaved : ElementData :=
  { pk := none, fhir_id := none,
    extensions := [{ url := "http://example.org/ext" }] }

/-- An Observation whose only non-null value branch is the empty string. -/
def obsEmptyString : Observation := { valueString := some "", code := ccBP }

/-- A not-yet-persisted Observation holding both a value and a
dataAbsentReason. -/
def obsPreSave : Observation :=
  { status := "final", code := ccBP, valueString := some "Normal",
    dataAbsentReason := some { text := some "asked-unknown" } }

/-- The same Observation once persisted. -/
def obsPostSave : Observation := { obsPreSave with dom := { pk := some 1 } }

/-- An Encounter planned to start after it ends. -/
def encLate : Encounter :=
  { status := "planned", plannedStartDate := some 10, plannedEndDate := some 5 }

/-- The same Encounter with the two dates swapped. -/
def encSwapped : Encounter :=
  { status := "planned", plannedStartDate := some 5, plannedEndDate := some 10 }

/-- A completed Encounter without a period. -/
def encCompletedNoPeriod : Encounter := { status := "completed" }

/-- An Organization with neither name nor identifiers. -/
def orgEmpty : Organization := {}

/-- An Organization with only a name. -/
def orgNamed : Organization := { name := some "Test Clinic" }

/-- A persisted Organization with only an identifier. -/
def orgWithIdentifier : Organization :=
  { dom := { pk := some 1 }, identifiers := [{ value := some "org-1" }] }

/-- A not-yet-persisted Organization whose contact telecom has home use. -/
def orgUnsavedHomeTelecom : Organization :=
  { name := some "Clinic",
    contacts := [{ telecom := [{ use := some "home" }] }] }

/-! ### Claim theorems -/

/-- Claim C1 (amended): for the choice-type groups whose check counts
fields with an is-not-None test (Extension.value[x], Observation.value[x],
Observation.effective[x], ObservationComponent.value[x]), the group's
check passes exactly when at most one field of the group is non-null — so
it fails iff more than one is non-null, and zero or one populated fields
always pass; for CanonicalResource.versionAlgorithm[x] the check instead
tests Python truthiness of both branches, so it fails iff
versionAlgorithmString is a non-empty string AND versionAlgorithmCoding is
set — a non-null but empty versionAlgorithmString together with a set
coding passes.  A full Observation validation that succeeds implies both
of its groups had at most one populated field. -/
theorem choiceGroup_exclusivity :
    (∀ e : Extension, extensionClean e = .ok () ↔ (extensionSetValues e).length ≤ 1)
    ∧ (∀ o : Observation, obsValueCheck o = .ok () ↔ (obsSetValues o).length ≤ 1)
    ∧ (∀ o : Observation,
        obsEffectiveCheck o = .ok () ↔ (obsEffectiveSet o).length ≤ 1)
    ∧ (∀ c : ObservationComponent,
        compValueCheck c = .ok () ↔ (compSetValues c).length ≤ 1)
    ∧ (∀ c : CanonicalResourceData,
        versionAlgorithmCheck c = .ok ()
          ↔ ¬(strTruthy c.versionAlgorithmString = true
              ∧ c.versionAlgorithmCoding.isSome = true))
    ∧ (∀ o : Observation, observationClean o = .ok () →
        (obsSetValues o).length ≤ 1 ∧ (obsEffectiveSet o).length ≤ 1) := by
  refine ⟨extensionClean_ok_iff, obsValueCheck_ok_iff, obsEffectiveCheck_ok_iff,
    compValueCheck_ok_iff, versionAlgorithmCheck_ok_iff, ?_⟩
  intro o h
  rw [observationClean_ok_iff] at h
  exact ⟨(obsValueCheck_ok_iff o).mp h.2.2.1, (obsEffectiveCheck_ok_iff o).mp h.2.1⟩

/-- Claim C1, counterexample to the claim as stated: a CanonicalResource
with versionAlgorithmString non-null (the empty string) and
versionAlgorithmCoding set has two non-null fields in the
versionAlgorithm[x] group, yet its full validation succeeds. -/
theorem choiceGroup_exclusivity_counterexample :
    canonVA.versionAlgorithmString.isSome = true
    ∧ canonVA.versionAlgorithmCoding.isSome = true
    ∧ canonicalResourceClean canonVA = Except.ok () :=
  ⟨rfl, rfl, rfl⟩

/-- Claim C2 (amended): the observation and encounter serializers emit
exactly the keys given by the key-level contract `obsKeySpec` /
`encKeySpec`: an optional key is present exactly when its field is
populated under the serializer's own test (truthiness for strings and raw
JSON, presence for the rest), each choice-type group contributes at most
one type-qualified key — the first branch of the fixed priority order that
passes the serializer's test, none otherwise, with no branch at all for
valueRange — and a multi-valued relationship is present exactly when some
member converts to a truthy document (in particular an empty relationship
is always omitted); no emitted value is JSON null. -/
theorem serialization_key_contract :
    (∀ o : Observation,
        keysOf (convert_observation o) = obsKeySpec o
        ∧ noNullValues (convert_observation o))
    ∧ (∀ e : Encounter, keysOf (convert_encounter e) = encKeySpec e) :=
  ⟨fun o => ⟨keysOf_convert_observation o, noNull_convert_observation o⟩,
   keysOf_convert_encounter⟩

/-- Claim C2, counterexample to the claim as stated: an Observation whose
value[x] group is populated (valueString is non-null) serializes with no
type-qualified value key at all, because the serializer tests the string
branch by truthiness and the empty string is falsy. -/
theorem serialization_key_contract_counterexample :
    obsEmptyString.valueString.isSome = true
    ∧ (obsSetValues obsEmptyString).length = 1
    ∧ keysOf (convert_observation obsEmptyString) = ["resourceType", "status", "code"] :=
  ⟨rfl, rfl, rfl⟩

/-- Claim C3 (confirmed): for a DomainResource with its container
back-reference set, the containment checker passes iff all three clauses
hold (contained empty, no meta version info, no meta security labels), it
evaluates clause (a) before (b) before (c) and raises only the first
violated clause; with no container set, the containment checker always
passes and the full DomainResource validation never raises any of the
three containment errors. -/
theorem containment_first_failure :
    (∀ d : DomainData, d.container = none → containmentCheck d = .ok ())
    ∧ (∀ d : DomainData, d.container.isSome = true →
        (containmentCheck d = .ok ()
          ↔ d.contained.isEmpty = true ∧ metaHasVersionInfo d.meta = false
            ∧ metaHasSecurity d.meta = false))
    ∧ (∀ d : DomainData, d.container.isSome = true → d.contained.isEmpty = false →
        containmentCheck d
          = .error "Contained resources cannot themselves contain other resources")
    ∧ (∀ d : DomainData, d.container.isSome = true → d.contained.isEmpty = true →
        metaHasVersionInfo d.meta = true →
        containmentCheck d
          = .error "Contained resources cannot have meta.versionId or meta.lastUpdated")
    ∧ (∀ d : DomainData, d.container.isSome = true → d.contained.isEmpty = true →
        metaHasVersionInfo d.meta = false → metaHasSecurity d.meta = true →
        containmentCheck d = .error "Contained resources cannot have security labels")
    ∧ (∀ d : DomainData, d.container = none →
        domainResourceClean d
            ≠ .error "Contained resources cannot themselves contain other resources"
        ∧ domainResourceClean d
            ≠ .error "Contained resources cannot have meta.versionId or meta.lastUpdated"
        ∧ domainResourceClean d
            ≠ .error "Contained resources cannot have security labels") := by
  have hnone : ∀ d : DomainData, d.container = none → containmentCheck d = .ok () := by
    intro d h
    unfold containmentCheck
    rw [h]
  refine ⟨hnone, ?_, ?_, ?_, ?_, ?_⟩
  · intro d h
    unfold containmentCheck
    cases hc : d.container with
    | none => rw [hc] at h; simp at h
    | some c =>
      cases h1 : d.contained.isEmpty <;>
        cases h2 : metaHasVersionInfo d.meta <;>
        cases h3 : metaHasSecurity d.meta <;>
        simp [h1, h2, h3]
  · intro d h h1
    unfold containmentCheck
    cases hc : d.container with
    | none => rw [hc] at h; simp at h
    | some c => simp [h1]
  · intro d h h1 h2
    unfold containmentCheck
    cases hc : d.container with
    | none => rw [hc] at h; simp at h
    | some c => simp [h1, h2]
  · intro d h h1 h2 h3
    unfold containmentCheck
    cases hc : d.container with
    | none => rw [hc] at h; simp at h
    | some c => simp [h1, h2, h3]
  · intro d h
    have hcc := hnone d h
    refine ⟨?_, ?_, ?_⟩ <;>
    · intro hbad
      unfold domainResourceClean at hbad
      rw [exceptBind_eq_error] at hbad
      rcases hbad with hb | ⟨_, hb⟩
      · unfold resourceClean at hb
        split at hb <;> simp_all
      · rw [hcc] at hb
        exact Except.noConfusion hb

/-- Claim C4 (amended): for a persisted Element, an attached extension
with no truthy fhir_id fails validation; an element whose children
attribute is truthy and whose fhir_id is not set fails regardless of
persistence; an Element with no children and no extensions always passes
this rule (in particular with no fhir_id).  The extension relation is only
consulted for persisted instances, so the unqualified claim fails (see the
counterexample). -/
theorem element_fhir_id_requirement :
    (∀ e : ElementData, pkTruthy e.pk = true → e.extensions.isEmpty = false →
        strTruthy e.fhir_id = false →
        elementClean e
          = .error "Element.fhir_id is required when element has children or extensions")
    ∧ (∀ e : ElementData, e.childrenTruthy = true → strTruthy e.fhir_id = false →
        elementClean e
          = .error "Element.fhir_id is required when element has children or extensions")
    ∧ (∀ e : ElementData, e.childrenTruthy = false → e.extensions = [] →
        elementClean e = .ok ()) := by
  refine ⟨?_, ?_, ?_⟩
  · intro e h1 h2 h3
    unfold elementClean
    simp [h1, h2, h3]
  · intro e h1 h2
    unfold elementClean
    simp [h1, h2]
  · intro e h1 h2
    unfold elementClean
    simp [h1, h2]

/-- Claim C4, counterexample to the claim as stated: a not-yet-persisted
Element with an attached extension and no fhir_id passes validation,
because the extension relation is consulted only when the instance has a
primary key. -/
theorem element_fhir_id_counterexample :
    elemUnsaved.extensions.isEmpty = false
    ∧ elemUnsaved.fhir_id = none
    ∧ elementClean elemUnsaved = .ok () :=
  ⟨rfl, rfl, rfl⟩

/-- Claim C5 (confirmed): a persisted Observation with some value[x]
branch populated and a dataAbsentReason set never validates; a
not-yet-persisted Observation passes validation whenever the remaining
rules pass, the dataAbsentReason rule being skipped — witnessed by a
concrete Observation holding both valueString and dataAbsentReason, which
validates before first save and fails validation once persisted. -/
theorem observation_dar_gating :
    (∀ o : Observation, pkTruthy o.dom.pk = true → (obsSetValues o).isEmpty = false →
        o.dataAbsentReason.isSome = true → observationClean o ≠ .ok ())
    ∧ (∀ o : Observation, pkTruthy o.dom.pk = false →
        domainResourceClean o.dom = .ok () → obsEffectiveCheck o = .ok () →
        obsValueCheck o = .ok () → observationClean o = .ok ())
    ∧ obsPreSave.valueString = some "Normal"
    ∧ obsPreSave.dataAbsentReason.isSome = true
    ∧ obsPreSave.dom.pk = none
    ∧ observationClean obsPreSave = .ok ()
    ∧ obsPostSave.dom.pk = some 1
    ∧ observationClean obsPostSave ≠ .ok () := by
  refine ⟨?_, ?_, rfl, rfl, rfl, rfl, rfl, ?_⟩
  · intro o h1 h2 h3 hok
    rw [observationClean_ok_iff] at hok
    have hd := hok.2.2.2
    unfold obsDarCheck at hd
    simp [h1, h2, h3] at hd
  · intro o h1 hd he hv
    rw [observationClean_ok_iff]
    refine ⟨hd, he, hv, ?_⟩
    unfold obsDarCheck
    simp [h1]
  · exact clean_ne_ok_of_eq_error
      (show observationClean obsPostSave
        = .error "dataAbsentReason shall only be present if there is no value[x]" from rfl)

/-- Whether both planned dates are present with start strictly after end
(the spec-side reading of the Encounter date rule). -/
def plannedDatesOutOfOrder (e : Encounter) : Bool :=
  match e.plannedStartDate, e.plannedEndDate with
  | some s, some t => decide (s > t)
  | _, _ => false

/-- Claim C6 (confirmed): the Encounter planned-date rule passes exactly
when it is not the case that both dates are set with start strictly after
end; when it is, full validation fails; start before-or-equal-to end
passes the rule, and a missing date means the rule never fires —
witnessed by the concrete out-of-order Encounter (validation fails) and
its date-swapped variant (validation passes). -/
theorem encounter_planned_date_order :
    (∀ e : Encounter,
        encounterDateCheck e = .ok () ↔ plannedDatesOutOfOrder e = false)
    ∧ (∀ e : Encounter, plannedDatesOutOfOrder e = true → encounterClean e ≠ .ok ())
    ∧ (∀ e : Encounter, ∀ s t : DateTime, e.plannedStartDate = some s →
        e.plannedEndDate = some t → s ≤ t → encounterDateCheck e = .ok ())
    ∧ encounterClean encLate ≠ .ok ()
    ∧ encounterClean encSwapped = .ok () := by
  refine ⟨?_, ?_, ?_, ?_, rfl⟩
  · intro e
    unfold encounterDateCheck plannedDatesOutOfOrder
    cases e.plannedStartDate <;> cases e.plannedEndDate <;>
      simp [ifError_ok_iff]
  · intro e h hok
    rw [encounterClean_ok_iff] at hok
    have hd := hok.2.1
    unfold plannedDatesOutOfOrder at h
    unfold encounterDateCheck at hd
    cases hs : e.plannedStartDate <;> rw [hs] at h hd <;>
      cases ht : e.plannedEndDate <;> rw [ht] at h hd <;> simp_all <;>
      exact absurd hd (not_le.mpr h)
  · intro e s t h1 h2 h3
    unfold encounterDateCheck
    rw [h1, h2]
    dsimp only
    rw [ifError_ok_iff]
    exact not_lt.mpr h3
  · exact clean_ne_ok_of_eq_error
      (show encounterClean encLate
        = .error "Encounter planned start date must be before or equal to planned end date"
        from rfl)

/-- Claim C7 (confirmed): an Encounter whose status is completed or
discharged and whose period is absent never validates; for every other
status the rule passes regardless of the period, and a present period
passes the rule regardless of the status — witnessed by a concrete
completed Encounter without a period. -/
theorem encounter_status_period_requirement :
    (∀ e : Encounter, (e.status = "completed" ∨ e.status = "discharged") →
        e.period = none → encounterClean e ≠ .ok ())
    ∧ (∀ e : Encounter, e.status ≠ "completed" → e.status ≠ "discharged" →
        encounterStatusPeriodCheck e = .ok ())
    ∧ (∀ e : Encounter, e.period.isSome = true →
        encounterStatusPeriodCheck e = .ok ())
    ∧ encounterClean encCompletedNoPeriod ≠ .ok () := by
  refine ⟨?_, ?_, ?_, ?_⟩
  · intro e h1 h2 hok
    rw [encounterClean_ok_iff] at hok
    have hs := hok.2.2
    unfold encounterStatusPeriodCheck at hs
    rcases h1 with h | h <;> simp [h, h2] at hs
  · intro e h1 h2
    unfold encounterStatusPeriodCheck
    simp [h1, h2]
  · intro e h
    unfold encounterStatusPeriodCheck
    simp [h]
  · exact clean_ne_ok_of_eq_error
      (show encounterClean encCompletedNoPeriod
        = .error "Completed or discharged encounters should have a period defined"
        from rfl)

/-- Claim C8 (confirmed): an Organization with neither a non-blank name
(non-empty after stripping whitespace) nor any linked Identifier never
validates; a non-blank name passes the identity rule, and so does a
persisted instance with at least one linked Identifier — witnessed by the
concrete empty, named, and identifier-bearing Organizations. -/
theorem organization_identity_requirement :
    (∀ g : Organization, orgHasName g = false → g.identifiers = [] →
        organizationClean g ≠ .ok ())
    ∧ (∀ g : Organization, orgHasName g = true → orgIdentityCheck g = .ok ())
    ∧ (∀ g : Organization, pkTruthy g.dom.pk = true → g.identifiers.isEmpty = false →
        orgIdentityCheck g = .ok ())
    ∧ organizationClean orgEmpty ≠ .ok ()
    ∧ organizationClean orgNamed = .ok ()
    ∧ organizationClean orgWithIdentifier = .ok () := by
  refine ⟨?_, ?_, ?_, ?_, rfl, rfl⟩
  · intro g h1 h2 hok
    rw [organizationClean_ok_iff] at hok
    have hi := hok.2.1
    unfold orgIdentityCheck at hi
    simp [h1, h2] at hi
  · intro g h
    unfold orgIdentityCheck
    simp [h]
  · intro g h1 h2
    unfold orgIdentityCheck
    simp [h1, h2]
  · exact clean_ne_ok_of_eq_error
      (show organizationClean orgEmpty
        = .error "Organization must have at least a name or an identifier" from rfl)

/-- Claim C9 (confirmed): validation of an instance without a persisted
identity never consults related rows — an unsaved Element (with a falsy
children attribute) passes the fhir_id rule whatever extensions the
relation would hold and whether or not fhir_id is set, and an unsaved
Organization is never checked for the home-use contact telecom rule —
witnessed by the unsaved Element with an extension and no fhir_id and the
unsaved Organization with a home-use telecom, both passing. -/
theorem pk_gating_of_relational_checks :
    (∀ e : ElementData, e.pk = none → e.childrenTruthy = false →
        elementClean e = .ok ())
    ∧ (∀ g : Organization, g.dom.pk = none → orgTelecomCheck g = .ok ())
    ∧ elemUnsaved.extensions.isEmpty = false
    ∧ elementClean elemUnsaved = .ok ()
    ∧ (orgUnsavedHomeTelecom.contacts.any
        fun cd => cd.telecom.any fun t => t.use == some "home") = true
    ∧ orgTelecomCheck orgUnsavedHomeTelecom = .ok () := by
  refine ⟨?_, ?_, rfl, rfl, rfl, rfl⟩
  · intro e h1 h2
    unfold elementClean
    simp [h1, h2, pkTruthy]
  · intro g h
    unfold orgTelecomCheck
    simp [h, pkTruthy]

/-- Claim C10 (confirmed): the validator counts any non-null value branch
as populated while the serializer tests string branches by truthiness —
an Observation whose only non-null value branch is the empty valueString
is counted as populated by the validator yet serializes with no value key
at all; boolean and integer branches are tested with is-not-None in both
places, so valueBoolean = false and valueInteger = 0 are both counted as
populated and emitted as explicit keys. -/
theorem validator_serializer_populated_divergence :
    (∀ o : Observation, o.valueString = some "" →
        o.valueQuantity = none → o.valueCodeableConcept = none →
        o.valueBoolean = none → o.valueInteger = none → o.valueRange = none →
        o.valuePeriod = none → o.valueDateTime = none → o.valueTime = none →
        obsSetValues o = ["valueString"]
        ∧ (keysOf (convert_observation o)).all
            (fun k => !(obsValueKeyNames.contains k)) = true)
    ∧ (∀ o : Observation, o.valueBoolean = some false →
        o.valueQuantity = none → o.valueCodeableConcept = none →
        o.valueString = none → o.valueInteger = none → o.valueRange = none →
        o.valuePeriod = none → o.valueDateTime = none → o.valueTime = none →
        obsSetValues o = ["valueBoolean"]
        ∧ ("valueBoolean", J.bool false) ∈ convert_observation o)
    ∧ (∀ o : Observation, o.valueInteger = some 0 →
        o.valueQuantity = none → o.valueCodeableConcept = none →
        o.valueString = none → o.valueBoolean = none → o.valueRange = none →
        o.valuePeriod = none → o.valueDateTime = none → o.valueTime = none →
        obsSetValues o = ["valueInteger"]
        ∧ ("valueInteger", J.int 0) ∈ convert_observation o) := by
  refine ⟨?_, ?_, ?_⟩
  · intro o h1 h2 h3 h4 h5 h6 h7 h8 h9
    constructor
    · simp [obsSetValues, h1, h2, h3, h4, h5, h6, h7, h8, h9]
    · have hvb : obsSerValueBranch o = none := by
        simp [obsSerValueBranch, h1, h2, h3, h4, h5, h6, h7, h8, h9,
          List.find?, strTruthy]
      rw [keysOf_convert_observation]
      unfold obsKeySpec
      rw [hvb]
      simp +decide only [List.all_append, optKey_all, effBranch_not_valueKey,
        Option.toList_none, List.all_nil, Bool.and_true, Bool.true_and]
      simp +decide [optKey_all]
  · intro o h1 h2 h3 h4 h5 h6 h7 h8 h9
    constructor
    · simp [obsSetValues, h1, h2, h3, h4, h5, h6, h7, h8, h9]
    · have hv : obsValueEntry o = [("valueBoolean", J.bool false)] := by
        simp [obsValueEntry, h1, h2, h3, h4, strTruthy]
      simp [convert_observation, List.mem_append, hv]
  · intro o h1 h2 h3 h4 h5 h6 h7 h8 h9
    constructor
    · simp [obsSetValues, h1, h2, h3, h4, h5, h6, h7, h8, h9]
    · have hv : obsValueEntry o = [("valueInteger", J.int 0)] := by
        simp [obsValueEntry, h1, h2, h3, h4, h5, strTruthy]
      simp [convert_observation, List.mem_append, hv]
